import Mathlib

/-!
Shallow embedding of the SGD dialogue-example cache coordinator
(`nemo/collections/nlp/data/datasets/sgd_dataset/SGDDataset.py`) and of the
MegatronBERT wrapper constructor
(`nemo/collections/nlp/nm/trainables/common/megatron/megatron_bert_nm.py`).

The file system is modelled explicitly as a finite map from paths to file
contents plus a set of directories.  Python exceptions become an `Except`
error type.  Numpy arrays are modelled as tagged values: an `i64` tag for
the platform integer dtype (Python int / `dtype=int` / `dtype=np.long`,
all 64-bit on the target platform, with wrap-around made explicit) and an
`f32` tag for `dtype=np.float32`; float payloads are carried as rationals,
so the dtype tags and the integer arithmetic are exact while float rounding
is not modelled.
-/

namespace SGD

/-- Errors raised by the embedded Python code: `indexError` for an index
outside the collection (the spec's OutOfRangeError), `keyError` for a
missing dictionary key (the spec's KeyNotFoundError),
`deserializationError` for an unreadable/corrupt cache file (`np.load`
failure), `valueError` with its message, and `ioError` for other I/O
failures. -/
inductive PyErr where
  | indexError
  | keyError
  | deserializationError
  | valueError (msg : String)
  | ioError
deriving DecidableEq, Repr

/-- The service schema attached to an example; only its `service_id` is read
by `__getitem__`. -/
structure ServiceSchema where
  service_id : Nat
deriving DecidableEq, Repr

/-- One dialogue example, with the fields `__getitem__` reads.  Integer-like
array fields are lists of `Int`; `requested_slot_status` is float-valued in
the source and is carried as rationals. -/
structure SGDExample where
  example_id_num : List Int
  service_schema : ServiceSchema
  is_real_example : Bool
  utterance_ids : List Int
  utterance_segment : List Int
  utterance_mask : List Int
  num_categorical_slots : Int
  categorical_slot_status : List Int
  num_categorical_slot_values : List Int
  categorical_slot_values : List Int
  num_noncategorical_slots : Int
  noncategorical_slot_status : List Int
  noncategorical_slot_value_start : List Int
  noncategorical_slot_value_end : List Int
  start_char_idx : List Int
  end_char_idx : List Int
  num_slots : Int
  requested_slot_status : List ℚ
  num_intents : Int
  intent_status : List Int
deriving DecidableEq, Repr

/-- The schema-embedding table returned by the Schema Embedding Provider for
one split.  Modelled from the spec: the provider returns a mapping from each
embedding name to a dictionary keyed by service id holding that service's
embedding array; a missing service id raises a KeyError on lookup. -/
structure SchemaEmbTable where
  cat_slot_emb : List (Nat × List ℚ)
  cat_slot_value_emb : List (Nat × List ℚ)
  noncat_slot_emb : List (Nat × List ℚ)
  req_slot_emb : List (Nat × List ℚ)
  intent_emb : List (Nat × List ℚ)
deriving DecidableEq, Repr

/-- Contents of a file on disk: a serialized example collection as written
by `np.save` (`npy`), a file whose stored format `np.load` cannot read
(`corrupt`), or unstructured bytes (`blob`, used for the schema pickle
artifacts whose contents this component never reads). -/
inductive FileData where
  | npy (features : List SGDExample)
  | corrupt
  | blob
deriving DecidableEq, Repr

/-- The file system: a finite map from paths to file contents plus the set
of existing directories. -/
structure FS where
  files : List (String × FileData)
  dirs : List String
deriving DecidableEq, Repr

/-- Whether a regular file exists at `p`. -/
def fsFileExists (fs : FS) (p : String) : Bool :=
  (fs.files.lookup p).isSome

/-- The embedding of `os.path.exists`: true for files and for directories. -/
def fsExists (fs : FS) (p : String) : Bool :=
  fsFileExists fs p || fs.dirs.contains p

/-- Writing file contents `d` at path `p` (the `np.save` call). -/
def fsWrite (fs : FS) (p : String) (d : FileData) : FS :=
  { fs with files := (p, d) :: fs.files.filter (fun q => q.1 != p) }

/-- The dialogues processor (Example Generator): its `schema_pkl_files`
mapping from split to the schema pickle path, and `get_dialog_examples`
producing the example collection for a split.  The generator is external to
this component and is modelled as a pure function, per the spec's interface
`generate(split) -> ordered sequence of Example`. -/
structure DialoguesProcessor where
  schema_pkl_files : List (String × String)
  get_dialog_examples : String → List SGDExample

/-- The schema embedding processor (Schema Embedding Provider), external to
this component: `get_schema_embeddings` returns the table for a split. -/
structure SchemaEmbProcessor where
  get_schema_embeddings : String → SchemaEmbTable

/-- The distributed runtime state visible to one process:
whether `torch.distributed.is_initialized()` holds, and the process rank. -/
structure DistEnv where
  distActive : Bool
  rank : Nat
deriving DecidableEq, Repr

/-- The condition of the source's `master_device` variable:
`not torch.distributed.is_initialized() or torch.distributed.get_rank() == 0`. -/
def masterB (dist : DistEnv) : Bool :=
  !dist.distActive || dist.rank == 0

/-- The derived cache file path: `os.path.join(dialogues_example_dir,
f"{task_name}_{dataset_split}_examples.processed")`. -/
def dialFilePath (dialogues_example_dir task_name dataset_split : String) : String :=
  dialogues_example_dir ++ "/" ++ (task_name ++ "_" ++ dataset_split ++ "_examples.processed")

/-- The source's `schema_pkl_exist` variable: `dataset_split in
schema_pkl_files and os.path.exists(schema_pkl_files[dataset_split])`. -/
def schemaPklExistB (dp : DialoguesProcessor) (dataset_split : String) (fs : FS) : Bool :=
  match dp.schema_pkl_files.lookup dataset_split with
  | some p => fsExists fs p
  | none => false

/-- The branch condition of the constructor's cache check:
`os.path.exists(dial_file) and not overwrite_dial_file and schema_pkl_exist`. -/
def cacheHitCond (overwrite_dial_file : Bool) (dialogues_example_dir task_name dataset_split : String)
    (dp : DialoguesProcessor) (fs : FS) : Bool :=
  fsExists fs (dialFilePath dialogues_example_dir task_name dataset_split)
    && !overwrite_dial_file && schemaPklExistB dp dataset_split fs

/-- The observable outcome of one run of `SGDDataset.__init__` on one
process: the resolved `self.features`, the `self.schema_data_dict` obtained
from the provider, the file system after the run, and which actions the run
performed (loaded from cache, invoked the generator, created the cache
directory, wrote the cache file). -/
structure InitTrace where
  features : List SGDExample
  schema_data_dict : SchemaEmbTable
  fs : FS
  loadedFromCache : Bool
  generated : Bool
  madeDir : Bool
  wroteFile : Bool
deriving DecidableEq, Repr

/-- The embedding of `SGDDataset.__init__`.  On a valid cache it loads the
collection via `np.load` (raising `deserializationError` on a corrupt file);
otherwise it invokes the generator on every process, and only the master
process (`masterB`) creates the cache directory if absent and writes the
cache file.  Both successful branches end by requesting the schema
embeddings for the split from the provider. -/
def sgdDatasetInit (task_name dialogues_example_dir : String) (overwrite_dial_file : Bool)
    (dataset_split : String) (schema_emb_processor : SchemaEmbProcessor)
    (dialogues_processor : DialoguesProcessor) (dist : DistEnv) (fs : FS) :
    Except PyErr InitTrace :=
  let dial_file := dialFilePath dialogues_example_dir task_name dataset_split
  if cacheHitCond overwrite_dial_file dialogues_example_dir task_name dataset_split
      dialogues_processor fs then
    match fs.files.lookup dial_file with
    | some (.npy feats) =>
        .ok { features := feats
              schema_data_dict := schema_emb_processor.get_schema_embeddings dataset_split
              fs := fs, loadedFromCache := true, generated := false
              madeDir := false, wroteFile := false }
    | some _ => .error .deserializationError
    | none => .error .ioError
  else
    let feats := dialogues_processor.get_dialog_examples dataset_split
    if masterB dist then
      let madeDir := !fsExists fs dialogues_example_dir
      let fs1 := if madeDir then { fs with dirs := dialogues_example_dir :: fs.dirs } else fs
      let fs2 := fsWrite fs1 dial_file (.npy feats)
      .ok { features := feats
            schema_data_dict := schema_emb_processor.get_schema_embeddings dataset_split
            fs := fs2, loadedFromCache := false, generated := true
            madeDir := madeDir, wroteFile := true }
    else
      .ok { features := feats
            schema_data_dict := schema_emb_processor.get_schema_embeddings dataset_split
            fs := fs, loadedFromCache := false, generated := true
            madeDir := false, wroteFile := false }

/-- Whether a run of the constructor wrote the cache file, as a Boolean
(used to count writers across a simulated distributed run). -/
def initWroteB (task_name dialogues_example_dir : String) (overwrite_dial_file : Bool)
    (dataset_split : String) (schema_emb_processor : SchemaEmbProcessor)
    (dialogues_processor : DialoguesProcessor) (dist : DistEnv) (fs : FS) : Bool :=
  match sgdDatasetInit task_name dialogues_example_dir overwrite_dial_file dataset_split
      schema_emb_processor dialogues_processor dist fs with
  | .ok t => t.wroteFile
  | .error _ => false

/-! Indexing (`__len__` / `__getitem__`). -/

/-- Python sequence indexing: a negative index counts from the end; an index
outside `[-len, len)` raises an IndexError. -/
def pyIndex {α : Type} (xs : List α) (i : Int) : Except PyErr α :=
  let j := if i < 0 then i + xs.length else i
  if 0 ≤ j then
    match xs.get? j.toNat with
    | some a => .ok a
    | none => .error .indexError
  else
    .error .indexError

/-- Python dictionary lookup: raises a KeyError when the key is absent. -/
def dictGet {α : Type} (d : List (Nat × α)) (k : Nat) : Except PyErr α :=
  match d.lookup k with
  | some v => .ok v
  | none => .error .keyError

/-- A numpy array as a tagged value: `i64` for the platform integer dtype
(`int` / `np.long` / the default dtype of integer data, 64-bit here) and
`f32` for `dtype=np.float32`. -/
inductive TVal where
  | i64 (data : List Int)
  | f32 (data : List ℚ)
deriving DecidableEq, Repr

/-- Conversion of an integer to the 64-bit platform integer dtype, with
two's-complement wrap-around made explicit. -/
def npIntCast (x : Int) : Int :=
  (x + 2 ^ 63) % 2 ^ 64 - 2 ^ 63

/-- `np.array` on a list of integers (default dtype or `np.long`). -/
def npArrIntList (xs : List Int) : TVal :=
  .i64 (xs.map npIntCast)

/-- `np.array` on an integer scalar: a 0-d platform integer array. -/
def npArrIntScalar (x : Int) : TVal :=
  .i64 [npIntCast x]

/-- `np.array(b, dtype=int)` on a Boolean flag: the integer 0 or 1. -/
def npArrBoolInt (b : Bool) : TVal :=
  .i64 [if b then 1 else 0]

/-- `np.array(xs, dtype=np.float32)`: a float32-tagged array (payload kept
exact; float rounding is not modelled). -/
def npArrF32 (xs : List ℚ) : TVal :=
  .f32 xs

/-- The 25-field tuple returned by `__getitem__`, in source order. -/
structure Item where
  example_id_num : TVal
  service_id : TVal
  is_real_example : TVal
  utterance_ids : TVal
  utterance_segment : TVal
  utterance_mask : TVal
  num_categorical_slots : TVal
  categorical_slot_status : TVal
  num_categorical_slot_values : TVal
  categorical_slot_values : TVal
  num_noncategorical_slots : TVal
  noncategorical_slot_status : TVal
  noncategorical_slot_value_start : TVal
  noncategorical_slot_value_end : TVal
  start_char_idx : TVal
  end_char_idx : TVal
  num_slots : TVal
  requested_slot_status : TVal
  num_intents : TVal
  intent_status : TVal
  cat_slot_emb : TVal
  cat_slot_value_emb : TVal
  noncat_slot_emb : TVal
  req_slot_emb : TVal
  intent_emb : TVal
deriving DecidableEq, Repr

/-- The embedding of `SGDDataset.__getitem__`: index into `self.features`
(Python semantics, negative indices wrap), then build the tuple, looking the
example's service id up in each of the five embedding dictionaries of
`self.schema_data_dict` (a missing service id raises a KeyError). -/
def sgdGetitem (features : List SGDExample) (schema_data_dict : SchemaEmbTable)
    (idx : Int) : Except PyErr Item := do
  let ex ← pyIndex features idx
  let service_id := ex.service_schema.service_id
  let cat ← dictGet schema_data_dict.cat_slot_emb service_id
  let catv ← dictGet schema_data_dict.cat_slot_value_emb service_id
  let noncat ← dictGet schema_data_dict.noncat_slot_emb service_id
  let req ← dictGet schema_data_dict.req_slot_emb service_id
  let intent ← dictGet schema_data_dict.intent_emb service_id
  .ok { example_id_num := npArrIntList ex.example_id_num
        service_id := npArrIntScalar (service_id : Int)
        is_real_example := npArrBoolInt ex.is_real_example
        utterance_ids := npArrIntList ex.utterance_ids
        utterance_segment := npArrIntList ex.utterance_segment
        utterance_mask := npArrIntList ex.utterance_mask
        num_categorical_slots := npArrIntScalar ex.num_categorical_slots
        categorical_slot_status := npArrIntList ex.categorical_slot_status
        num_categorical_slot_values := npArrIntList ex.num_categorical_slot_values
        categorical_slot_values := npArrIntList ex.categorical_slot_values
        num_noncategorical_slots := npArrIntScalar ex.num_noncategorical_slots
        noncategorical_slot_status := npArrIntList ex.noncategorical_slot_status
        noncategorical_slot_value_start := npArrIntList ex.noncategorical_slot_value_start
        noncategorical_slot_value_end := npArrIntList ex.noncategorical_slot_value_end
        start_char_idx := npArrIntList ex.start_char_idx
        end_char_idx := npArrIntList ex.end_char_idx
        num_slots := npArrIntScalar ex.num_slots
        requested_slot_status := npArrF32 ex.requested_slot_status
        num_intents := npArrIntScalar ex.num_intents
        intent_status := npArrIntList ex.intent_status
        cat_slot_emb := npArrF32 cat
        cat_slot_value_emb := npArrF32 catv
        noncat_slot_emb := npArrF32 noncat
        req_slot_emb := npArrF32 req
        intent_emb := npArrF32 intent }

/-- Whether a service id is present in all five dictionaries of the table. -/
def serviceInTable (tbl : SchemaEmbTable) (s : Nat) : Bool :=
  (tbl.cat_slot_emb.lookup s).isSome && (tbl.cat_slot_value_emb.lookup s).isSome
    && (tbl.noncat_slot_emb.lookup s).isSome && (tbl.req_slot_emb.lookup s).isSome
    && (tbl.intent_emb.lookup s).isSome

/-- Whether an integer fits the 64-bit platform integer dtype. -/
def inInt64 (x : Int) : Bool :=
  decide (-(2 ^ 63) ≤ x) && decide (x < 2 ^ 63)

/-- All integer-valued fields of an example fit the 64-bit platform integer
dtype; plausible dialogue-length values (sequence lengths, slot counts,
ids) are far inside this range. -/
def plausibleEx (ex : SGDExample) : Bool :=
  ex.example_id_num.all inInt64 && inInt64 (ex.service_schema.service_id : Int)
    && ex.utterance_ids.all inInt64 && ex.utterance_segment.all inInt64
    && ex.utterance_mask.all inInt64 && inInt64 ex.num_categorical_slots
    && ex.categorical_slot_status.all inInt64 && ex.num_categorical_slot_values.all inInt64
    && ex.categorical_slot_values.all inInt64 && inInt64 ex.num_noncategorical_slots
    && ex.noncategorical_slot_status.all inInt64
    && ex.noncategorical_slot_value_start.all inInt64
    && ex.noncategorical_slot_value_end.all inInt64
    && ex.start_char_idx.all inInt64 && ex.end_char_idx.all inInt64
    && inInt64 ex.num_slots && inInt64 ex.num_intents && ex.intent_status.all inInt64

/-! Concrete fixtures used by witnesses and counterexamples. -/

/-- A concrete example whose service id (0) is present in `tblA`. -/
def exA : SGDExample :=
  { example_id_num := [1, 0, 0, 7]
    service_schema := ⟨0⟩
    is_real_example := true
    utterance_ids := [101, 2054, 102]
    utterance_segment := [0, 0, 1]
    utterance_mask := [1, 1, 1]
    num_categorical_slots := 2
    categorical_slot_status := [1, 0]
    num_categorical_slot_values := [3, 2]
    categorical_slot_values := [1, 2]
    num_noncategorical_slots := 1
    noncategorical_slot_status := [1]
    noncategorical_slot_value_start := [4]
    noncategorical_slot_value_end := [6]
    start_char_idx := [0, 5, 9]
    end_char_idx := [4, 8, 12]
    num_slots := 2
    requested_slot_status := [1, 0]
    num_intents := 1
    intent_status := [1] }

/-- A concrete example whose service id (5) is absent from `tblA`. -/
def exB : SGDExample :=
  { exA with service_schema := ⟨5⟩ }

/-- A concrete schema-embedding table with entries for service ids 0 and 1. -/
def tblA : SchemaEmbTable :=
  { cat_slot_emb := [(0, [1, 2]), (1, [3, 4])]
    cat_slot_value_emb := [(0, [5]), (1, [6])]
    noncat_slot_emb := [(0, [7]), (1, [8])]
    req_slot_emb := [(0, [9]), (1, [10])]
    intent_emb := [(0, [11]), (1, [12])] }

/-- A concrete dialogues processor whose schema pickle for split "s" is at
path "p_s" and whose generator yields `[exA]`. -/
def dpA : DialoguesProcessor :=
  { schema_pkl_files := [("s", "p_s")]
    get_dialog_examples := fun _ => [exA] }

/-- A concrete dialogues processor with an empty schema-pickle mapping. -/
def dpNoPkl : DialoguesProcessor :=
  { schema_pkl_files := []
    get_dialog_examples := fun _ => [exA] }

/-- A concrete schema embedding processor returning `tblA` for every split. -/
def sepA : SchemaEmbProcessor :=
  { get_schema_embeddings := fun _ => tblA }

/-- A single-process run: no distributed group active. -/
def distSolo : DistEnv := { distActive := false, rank := 0 }

/-- An empty file system. -/
def fs0 : FS := { files := [], dirs := [] }

/-- A file system holding only the schema pickle artifact for split "s". -/
def fsPkl : FS := { files := [("p_s", .blob)], dirs := [] }

/-- A file system where the cache for task "t", split "s" under directory
"d" is present and valid, and the schema pickle artifact exists. -/
def fsHit : FS :=
  { files := [("d/t_s_examples.processed", .npy [exA]), ("p_s", .blob)]
    dirs := ["d"] }

/-- Like `fsHit`, but the cache file's stored format is corrupt. -/
def fsCorrupt : FS :=
  { files := [("d/t_s_examples.processed", .corrupt), ("p_s", .blob)]
    dirs := ["d"] }

/-- The trace of a cache-hit run on `fsHit`. -/
def tHitA : InitTrace :=
  { features := [exA], schema_data_dict := tblA, fs := fsHit
    loadedFromCache := true, generated := false, madeDir := false, wroteFile := false }

/-- The trace of a cache-miss run on `fs0` by a sole (master) process. -/
def tGen0 : InitTrace :=
  { features := [exA], schema_data_dict := tblA
    fs := { files := [("d/t_s_examples.processed", FileData.npy [exA])], dirs := ["d"] }
    loadedFromCache := false, generated := true, madeDir := true, wroteFile := true }

/-- The trace of a cache-miss run on `fsPkl` by a sole (master) process. -/
def tGenP : InitTrace :=
  { features := [exA], schema_data_dict := tblA
    fs := { files := [("d/t_s_examples.processed", FileData.npy [exA]), ("p_s", FileData.blob)]
            dirs := ["d"] }
    loadedFromCache := false, generated := true, madeDir := true, wroteFile := true }

/-- The trace of a run on `fsHit` that misses because the schema-pickle
mapping is empty, by a sole (master) process. -/
def tGen1 : InitTrace :=
  { features := [exA], schema_data_dict := tblA
    fs := { files := [("d/t_s_examples.processed", FileData.npy [exA]), ("p_s", FileData.blob)]
            dirs := ["d"] }
    loadedFromCache := false, generated := true, madeDir := false, wroteFile := true }

end SGD

namespace MegatronNM

/-- The model configuration read from the JSON configuration file: the
values at the keys `num-layers`, `hidden-size`, `num-attention-heads` and
`max-seq-length`. -/
structure MegatronConfig where
  num_layers : Int
  hidden_size : Int
  num_attention_heads : Int
  max_seq_length : Int
deriving DecidableEq, Repr

/-- Contents of a file visible to the wrapper: a well-formed JSON
configuration, or other bytes. -/
inductive MFileData where
  | jsonConfig (cfg : MegatronConfig)
  | blob
deriving DecidableEq, Repr

/-- The file system visible to the wrapper constructor. -/
structure MFS where
  files : List (String × MFileData)
  dirs : List String
deriving DecidableEq, Repr

/-- The embedding of `os.path.exists` for the wrapper's file system. -/
def mfsExists (fs : MFS) (p : String) : Bool :=
  (fs.files.lookup p).isSome || fs.dirs.contains p

/-- The `megatron_args` dictionary assembled from the configuration. -/
structure MegatronArgs where
  num_layers : Int
  hidden_size : Int
  num_attention_heads : Int
  max_position_embeddings : Int
  tokenizer_type : String
  vocab_file : String
deriving DecidableEq, Repr

/-- The observable outcome of a successful `MegatronBERT.__init__`: that
the configuration was read, the assembled arguments, the seed passed to the
random-seed setter, and that the language model was built. -/
structure MInitTrace where
  configRead : Bool
  megatron_args : MegatronArgs
  seed : Int
  languageModelBuilt : Bool
deriving DecidableEq, Repr

/-- The embedding of `MegatronBERT.__init__` up to the construction of the
language model: it checks that the vocabulary file exists, then that the
configuration file exists — each missing file raises a ValueError naming
it, before any configuration is read — then reads and parses the
configuration file, assembles `megatron_args`, and requires the factory's
random seed to be set (ValueError otherwise).  Building the language model
is external (`get_language_model`) and is recorded only as having
happened. -/
def megatronBertInit (fs : MFS) (model_name config_file vocab_file tokenizer_type : String)
    (factory_random_seed : Option Int) : Except SGD.PyErr MInitTrace :=
  if !mfsExists fs vocab_file then
    .error (.valueError ("Vocab file not found at " ++ vocab_file))
  else if !mfsExists fs config_file then
    .error (.valueError ("Config file not found at " ++ config_file))
  else
    match fs.files.lookup config_file with
    | some (.jsonConfig config) =>
      match factory_random_seed with
      | none => .error (.valueError
          "Megatron Neural Module requires Neural Factory to have random_seed is not None.")
      | some s =>
        .ok { configRead := true
              megatron_args :=
                { num_layers := config.num_layers
                  hidden_size := config.hidden_size
                  num_attention_heads := config.num_attention_heads
                  max_position_embeddings := config.max_seq_length
                  tokenizer_type := tokenizer_type
                  vocab_file := vocab_file }
              seed := s
              languageModelBuilt := true }
    | some .blob => .error .deserializationError
    | none => .error .ioError

/-- A concrete file system holding only a configuration file at "c"
(no vocabulary file). -/
def fsMNoVocab : MFS :=
  { files := [("c", .jsonConfig { num_layers := 12, hidden_size := 768
                                  num_attention_heads := 12, max_seq_length := 512 })]
    dirs := [] }

end MegatronNM

namespace SGD

/-- C1: the constructor reuses the cached example collection if and only if
the overwrite flag is unset, the derived cache file
`{dir}/{task}_{split}_examples.processed` exists, and the schema pickle
artifact for the split exists (the split is in the mapping and its file is
on disk); whenever the schema artifact is missing, the run regenerates even
if the cache file itself is present. -/
theorem c1_cache_reuse_iff (task dir : String) (ow : Bool) (split : String)
    (sep : SchemaEmbProcessor) (dp : DialoguesProcessor) (dist : DistEnv) (fs : FS)
    (t : InitTrace)
    (h : sgdDatasetInit task dir ow split sep dp dist fs = .ok t) :
    (t.loadedFromCache = true ↔
      (ow = false ∧ fsExists fs (dialFilePath dir task split) = true ∧
        schemaPklExistB dp split fs = true)) ∧
    (schemaPklExistB dp split fs = false → t.generated = true) := by
  unfold sgdDatasetInit cacheHitCond at h
  dsimp only at h
  split at h
  case isTrue hc =>
    simp only [Bool.and_eq_true, Bool.not_eq_true'] at hc
    split at h
    case h_1 feats heq =>
      cases h
      simp_all
    case h_2 heq hne =>
      cases h
    case h_3 heq =>
      cases h
  case isFalse hc =>
    simp only [Bool.and_eq_true, Bool.not_eq_true', not_and] at hc
    split at h
    case isTrue hm =>
      cases h
      simp_all [imp_iff_or_not]
      tauto
    case isFalse hm =>
      cases h
      simp_all [imp_iff_or_not]
      tauto

/-- Looking up the path just written returns the freshly written contents. -/
theorem fsWrite_lookup_self (fs : FS) (p : String) (d : FileData) :
    (fsWrite fs p d).files.lookup p = some d := by
  simp [fsWrite, List.lookup]

/-- A run on a state whose cache file holds a readable serialized
collection, with the overwrite flag unset and the schema artifact present,
is a pure cache hit. -/
theorem init_hit_of_lookup (task dir split : String) (sep : SchemaEmbProcessor)
    (dp : DialoguesProcessor) (dist : DistEnv) (fs : FS) (feats : List SGDExample)
    (hl : fs.files.lookup (dialFilePath dir task split) = some (.npy feats))
    (hpkl : schemaPklExistB dp split fs = true) :
    sgdDatasetInit task dir false split sep dp dist fs = .ok
      { features := feats, schema_data_dict := sep.get_schema_embeddings split, fs := fs
        loadedFromCache := true, generated := false, madeDir := false, wroteFile := false } := by
  unfold sgdDatasetInit cacheHitCond
  dsimp only
  have hfe : fsExists fs (dialFilePath dir task split) = true := by
    simp [fsExists, fsFileExists, hl]
  simp [hfe, hpkl, hl]

/-- Every successful run stores the provider's embedding table for the
split in the trace. -/
theorem init_schema_dict (task dir : String) (ow : Bool) (split : String)
    (sep : SchemaEmbProcessor) (dp : DialoguesProcessor) (dist : DistEnv) (fs : FS)
    (t : InitTrace)
    (h : sgdDatasetInit task dir ow split sep dp dist fs = .ok t) :
    t.schema_data_dict = sep.get_schema_embeddings split := by
  unfold sgdDatasetInit at h
  dsimp only at h
  split at h
  · split at h
    · cases h; rfl
    · cases h
    · cases h
  · split at h
    · cases h; rfl
    · cases h; rfl

/-- After a successful master-process run with the overwrite flag unset,
the cache file of the resulting state holds the resolved collection. -/
theorem init_master_lookup (task dir split : String) (sep : SchemaEmbProcessor)
    (dp : DialoguesProcessor) (dist : DistEnv) (fs : FS) (t1 : InitTrace)
    (h1 : sgdDatasetInit task dir false split sep dp dist fs = .ok t1)
    (hm : masterB dist = true) :
    t1.fs.files.lookup (dialFilePath dir task split) = some (.npy t1.features) := by
  unfold sgdDatasetInit at h1
  dsimp only at h1
  simp only [hm, if_true] at h1
  split at h1
  · split at h1
    case h_1 feats heq => cases h1; simpa using heq
    case h_2 => cases h1
    case h_3 => cases h1
  · cases h1
    exact fsWrite_lookup_self _ _ _

/-- On a cache miss, the run of a distributed process with rank `r` writes
the cache file exactly when `r = 0`. -/
theorem initWroteB_miss_rank (task dir : String) (ow : Bool) (split : String)
    (sep : SchemaEmbProcessor) (dp : DialoguesProcessor) (fs : FS) (r : Nat)
    (hmiss : cacheHitCond ow dir task split dp fs = false) :
    initWroteB task dir ow split sep dp { distActive := true, rank := r } fs = (r == 0) := by
  unfold initWroteB sgdDatasetInit
  dsimp only
  rw [hmiss]
  simp only [masterB, Bool.not_true, Bool.false_or, Bool.false_eq_true, if_false]
  cases hr : (r == 0) <;> simp [hr]

/-- Among the ranks `0, …, n-1`, exactly one equals 0. -/
theorem length_filter_range_zero (n : Nat) (hn : 0 < n) :
    ((List.range n).filter (fun r => r == 0)).length = 1 := by
  induction n with
  | zero => omega
  | succ m ih =>
    rw [List.range_succ, List.filter_append, List.length_append]
    rcases Nat.eq_zero_or_pos m with h0 | hm
    · subst h0; decide
    · rw [ih hm]
      have hne : (m == 0) = false := beq_eq_false_iff_ne.mpr (Nat.pos_iff_ne_zero.mp hm)
      simp [List.filter, hne]

/-- C2: on a cache miss, a run writes the cache file exactly when it is the
master process (rank 0 of an active distributed group, or the sole process
with no group active); a non-master run changes nothing on disk and creates
no directory; and across a simulated distributed run with ranks
`0, …, n-1`, exactly one process performs the persist step. -/
theorem c2_single_writer (task dir : String) (ow : Bool) (split : String)
    (sep : SchemaEmbProcessor) (dp : DialoguesProcessor) (dist : DistEnv) (fs : FS)
    (t : InitTrace) (n : Nat)
    (hmiss : cacheHitCond ow dir task split dp fs = false)
    (hn : 0 < n)
    (h : sgdDatasetInit task dir ow split sep dp dist fs = .ok t) :
    t.wroteFile = masterB dist ∧
    (masterB dist = false → t.fs = fs ∧ t.madeDir = false) ∧
    ((List.range n).filter
        (fun r => initWroteB task dir ow split sep dp { distActive := true, rank := r } fs)).length
      = 1 := by
  refine ⟨?_, ?_, ?_⟩
  · unfold sgdDatasetInit at h
    dsimp only at h
    rw [hmiss] at h
    simp only [Bool.false_eq_true, if_false] at h
    split at h <;> (cases h; simp_all)
  · unfold sgdDatasetInit at h
    dsimp only at h
    rw [hmiss] at h
    simp only [Bool.false_eq_true, if_false] at h
    split at h <;> (cases h; simp_all)
  · rw [List.filter_congr
      (fun r _ => initWroteB_miss_rank task dir ow split sep dp fs r hmiss)]
    exact length_filter_range_zero n hn

/-- Witness for C2 at a concrete cache-miss input with two simulated ranks. -/
theorem c2_single_writer_witness :
    cacheHitCond false "d" "t" "s" dpA fs0 = false ∧ 0 < 2 ∧
    sgdDatasetInit "t" "d" false "s" sepA dpA distSolo fs0 = .ok tGen0 ∧
    (tGen0.wroteFile = masterB distSolo ∧
      (masterB distSolo = false → tGen0.fs = fs0 ∧ tGen0.madeDir = false) ∧
      ((List.range 2).filter
          (fun r => initWroteB "t" "d" false "s" sepA dpA { distActive := true, rank := r } fs0)).length
        = 1) :=
  ⟨by rfl, by omega, by rfl,
    c2_single_writer "t" "d" false "s" sepA dpA distSolo fs0 tGen0 2 (by rfl) (by omega) (by rfl)⟩

/-- C4: with the overwrite flag set, even on a pre-existing valid cache
(valid cache file contents present and schema artifact present), the run
invokes the generator, does not load the old cache, and on the master
process writes the cache file so that it afterwards holds the freshly
generated collection. -/
theorem c4_overwrite_forces_regeneration (task dir split : String)
    (sep : SchemaEmbProcessor) (dp : DialoguesProcessor) (dist : DistEnv) (fs : FS)
    (feats0 : List SGDExample)
    (h0 : fs.files.lookup (dialFilePath dir task split) = some (.npy feats0))
    (hpkl : schemaPklExistB dp split fs = true)
    (hm : masterB dist = true) :
    (sgdDatasetInit task dir true split sep dp dist fs).toOption.map InitTrace.generated
        = some true ∧
    (sgdDatasetInit task dir true split sep dp dist fs).toOption.map InitTrace.loadedFromCache
        = some false ∧
    (sgdDatasetInit task dir true split sep dp dist fs).toOption.map InitTrace.features
        = some (dp.get_dialog_examples split) ∧
    (sgdDatasetInit task dir true split sep dp dist fs).toOption.map InitTrace.wroteFile
        = some true ∧
    (sgdDatasetInit task dir true split sep dp dist fs).toOption.map
        (fun t => t.fs.files.lookup (dialFilePath dir task split))
      = some (some (.npy (dp.get_dialog_examples split))) := by
  unfold sgdDatasetInit cacheHitCond
  dsimp only
  simp only [Bool.not_true, Bool.and_false, Bool.false_and, Bool.false_eq_true, if_false]
  rw [hm]
  simp [Except.toOption, fsWrite_lookup_self]

/-- Witness for C4 at a concrete input with a valid pre-existing cache. -/
theorem c4_overwrite_forces_regeneration_witness :
    fsHit.files.lookup (dialFilePath "d" "t" "s") = some (.npy [exA]) ∧
    schemaPklExistB dpA "s" fsHit = true ∧ masterB distSolo = true ∧
    ((sgdDatasetInit "t" "d" true "s" sepA dpA distSolo fsHit).toOption.map InitTrace.generated
        = some true ∧
      (sgdDatasetInit "t" "d" true "s" sepA dpA distSolo fsHit).toOption.map InitTrace.loadedFromCache
        = some false ∧
      (sgdDatasetInit "t" "d" true "s" sepA dpA distSolo fsHit).toOption.map InitTrace.features
        = some (dpA.get_dialog_examples "s") ∧
      (sgdDatasetInit "t" "d" true "s" sepA dpA distSolo fsHit).toOption.map InitTrace.wroteFile
        = some true ∧
      (sgdDatasetInit "t" "d" true "s" sepA dpA distSolo fsHit).toOption.map
          (fun t => t.fs.files.lookup (dialFilePath "d" "t" "s"))
        = some (some (.npy (dpA.get_dialog_examples "s")))) :=
  ⟨by rfl, by rfl, by rfl,
    c4_overwrite_forces_regeneration "t" "d" "s" sepA dpA distSolo fsHit [exA]
      (by rfl) (by rfl) (by rfl)⟩

/-- C5: every successful run of the constructor, whether it loaded the
cache or regenerated, ends by requesting the schema embedding table for the
split from the provider and storing it in the trace. -/
theorem c5_schema_request_unconditional (task dir : String) (ow : Bool) (split : String)
    (sep : SchemaEmbProcessor) (dp : DialoguesProcessor) (dist : DistEnv) (fs : FS)
    (t : InitTrace)
    (h : sgdDatasetInit task dir ow split sep dp dist fs = .ok t) :
    t.schema_data_dict = sep.get_schema_embeddings split :=
  init_schema_dict task dir ow split sep dp dist fs t h

/-- Witness for C5 at a concrete cache-miss input. -/
theorem c5_schema_request_unconditional_witness :
    sgdDatasetInit "t" "d" false "s" sepA dpNoPkl distSolo fsHit = .ok tGen1 ∧
    tGen1.schema_data_dict = sepA.get_schema_embeddings "s" :=
  ⟨by rfl,
    c5_schema_request_unconditional "t" "d" false "s" sepA dpNoPkl distSolo fsHit tGen1 (by rfl)⟩

/-- C8: when the cache passes the validity check (overwrite unset, cache
file present, schema artifact present) but the cache file's stored format
is corrupt, the constructor fails with a deserialization error; it does not
fall back to regeneration. -/
theorem c8_corrupt_cache (task dir split : String)
    (sep : SchemaEmbProcessor) (dp : DialoguesProcessor) (dist : DistEnv) (fs : FS)
    (hex : fs.files.lookup (dialFilePath dir task split) = some .corrupt)
    (hpkl : schemaPklExistB dp split fs = true) :
    sgdDatasetInit task dir false split sep dp dist fs = .error .deserializationError := by
  unfold sgdDatasetInit cacheHitCond
  dsimp only
  have hfe : fsExists fs (dialFilePath dir task split) = true := by
    simp [fsExists, fsFileExists, hex]
  simp [hfe, hpkl, hex]

/-- Witness for C8 at a concrete input with a corrupt cache file. -/
theorem c8_corrupt_cache_witness :
    fsCorrupt.files.lookup (dialFilePath "d" "t" "s") = some FileData.corrupt ∧
    schemaPklExistB dpA "s" fsCorrupt = true ∧
    sgdDatasetInit "t" "d" false "s" sepA dpA distSolo fsCorrupt
      = .error .deserializationError :=
  ⟨by rfl, by rfl,
    c8_corrupt_cache "t" "d" "s" sepA dpA distSolo fsCorrupt (by rfl) (by rfl)⟩

/-- Counterexample to C9 as stated: with the schema-pickle mapping empty,
the first run (sole process) generates and writes the cache file, yet the
second run with identical inputs regenerates instead of being a pure cache
hit — the claim's "for every input" fails. -/
theorem c9_counterexample_regenerates :
    (sgdDatasetInit "t" "d" false "s" sepA dpNoPkl distSolo fs0).toOption.map
        (fun t1 => t1.wroteFile) = some true ∧
    (sgdDatasetInit "t" "d" false "s" sepA dpNoPkl distSolo fs0).toOption.map
        (fun t1 => (sgdDatasetInit "t" "d" false "s" sepA dpNoPkl distSolo t1.fs).toOption.map
          (fun t2 => t2.generated)) = some (some true) :=
  ⟨rfl, rfl⟩

/-- C9 (amended): when the first run succeeds on the master process (rank 0
or sole process) and the schema artifact for the split exists in the state
the first run leaves behind, the second run with identical inputs and the
overwrite flag unset is a pure cache hit: it performs no regeneration and
no write, leaves the file system (hence the cache file bytes) unchanged,
and returns a value-identical example collection. -/
theorem c9_second_run_pure_hit (task dir split : String) (sep : SchemaEmbProcessor)
    (dp : DialoguesProcessor) (dist : DistEnv) (fs : FS) (t1 : InitTrace)
    (h1 : sgdDatasetInit task dir false split sep dp dist fs = .ok t1)
    (hm : masterB dist = true)
    (hpkl : schemaPklExistB dp split t1.fs = true) :
    sgdDatasetInit task dir false split sep dp dist t1.fs
      = .ok { t1 with loadedFromCache := true, generated := false
                      madeDir := false, wroteFile := false } := by
  have hsd := init_schema_dict task dir false split sep dp dist fs t1 h1
  have key := init_master_lookup task dir split sep dp dist fs t1 h1 hm
  rw [init_hit_of_lookup task dir split sep dp dist t1.fs t1.features key hpkl]
  cases t1
  simp_all

/-- Witness for the amended C9 at a concrete input: a first run that
generates and persists, followed by a second run that is a pure hit. -/
theorem c9_second_run_pure_hit_witness :
    sgdDatasetInit "t" "d" false "s" sepA dpA distSolo fsPkl = .ok tGenP ∧
    masterB distSolo = true ∧ schemaPklExistB dpA "s" tGenP.fs = true ∧
    sgdDatasetInit "t" "d" false "s" sepA dpA distSolo tGenP.fs
      = .ok { tGenP with loadedFromCache := true, generated := false
                         madeDir := false, wroteFile := false } :=
  ⟨by rfl, by rfl, by rfl,
    c9_second_run_pure_hit "t" "d" "s" sepA dpA distSolo fsPkl tGenP
      (by rfl) (by rfl) (by rfl)⟩

/-- Witness for C1 at a concrete cache-hit input. -/
theorem c1_cache_reuse_iff_witness :
    sgdDatasetInit "t" "d" false "s" sepA dpA distSolo fsHit = .ok tHitA ∧
    ((tHitA.loadedFromCache = true ↔
      (false = false ∧ fsExists fsHit (dialFilePath "d" "t" "s") = true ∧
        schemaPklExistB dpA "s" fsHit = true)) ∧
    (schemaPklExistB dpA "s" fsHit = false → tHitA.generated = true)) :=
  ⟨by rfl, c1_cache_reuse_iff "t" "d" false "s" sepA dpA distSolo fsHit tHitA (by rfl)⟩

/-! Indexing lemmas. -/

/-- A nonnegative index below the length retrieves a member of the list. -/
theorem pyIndex_ok_mem {α : Type} (xs : List α) (i : Int)
    (h1 : 0 ≤ i) (h2 : i < (xs.length : Int)) :
    ∃ a, pyIndex xs i = .ok a ∧ a ∈ xs := by
  unfold pyIndex
  dsimp only
  have hi : ¬ i < 0 := by omega
  rw [if_neg hi, if_pos h1]
  have hlt : i.toNat < xs.length := by omega
  rw [List.get?_eq_get hlt]
  exact ⟨xs.get ⟨i.toNat, hlt⟩, rfl, List.get_mem xs i.toNat hlt⟩

/-- A negative index in range addresses from the end of the list. -/
theorem pyIndex_neg {α : Type} (xs : List α) (i : Int)
    (h1 : -(xs.length : Int) ≤ i) (h2 : i < 0) :
    pyIndex xs i = pyIndex xs (i + xs.length) := by
  unfold pyIndex
  dsimp only
  rw [if_pos h2, if_neg (by omega : ¬ i + (xs.length : Int) < 0)]

/-- An index outside `[-len, len)` raises an IndexError. -/
theorem pyIndex_oob {α : Type} (xs : List α) (i : Int)
    (h : (xs.length : Int) ≤ i ∨ i < -(xs.length : Int)) :
    pyIndex xs i = .error .indexError := by
  unfold pyIndex
  dsimp only
  by_cases hi : i < 0
  · rw [if_pos hi]
    rcases h with h | h
    · omega
    · rw [if_neg (by omega : ¬ (0:Int) ≤ i + xs.length)]
  · rw [if_neg hi, if_pos (by omega : (0:Int) ≤ i)]
    have hge : xs.length ≤ i.toNat := by omega
    rw [List.get?_eq_none.mpr hge]

/-- When the indexed example's service id is present in all five embedding
dictionaries, `__getitem__` succeeds. -/
theorem sgdGetitem_isSome_of_serviceInTable (features : List SGDExample)
    (tbl : SchemaEmbTable) (i : Int) (ex : SGDExample)
    (hp : pyIndex features i = .ok ex)
    (hs : serviceInTable tbl ex.service_schema.service_id = true) :
    (sgdGetitem features tbl i).toOption.isSome = true := by
  simp only [serviceInTable, Bool.and_eq_true] at hs
  obtain ⟨⟨⟨⟨h1, h2⟩, h3⟩, h4⟩, h5⟩ := hs
  rw [Option.isSome_iff_exists] at h1 h2 h3 h4 h5
  obtain ⟨v1, hv1⟩ := h1
  obtain ⟨v2, hv2⟩ := h2
  obtain ⟨v3, hv3⟩ := h3
  obtain ⟨v4, hv4⟩ := h4
  obtain ⟨v5, hv5⟩ := h5
  simp [sgdGetitem, hp, dictGet, Bind.bind, Except.bind, hv1, hv2, hv3, hv4, hv5,
    Except.toOption]

/-- C3 (amended): for a collection all of whose examples carry service ids
present in the embedding table, `get(i)` succeeds for every `0 ≤ i < n`;
a negative index with `-n ≤ i < 0` addresses from the end of the collection
(Python indexing) rather than failing; an index with `i ≥ n` or `i < -n`
fails with an IndexError; in particular `get(n)` fails with an IndexError
while `get(-1)` succeeds on a non-empty collection. -/
theorem c3_indexing_bounds (features : List SGDExample) (tbl : SchemaEmbTable) (i : Int)
    (hserv : ∀ ex ∈ features, serviceInTable tbl ex.service_schema.service_id = true)
    (hne : features ≠ []) :
    ((0 ≤ i ∧ i < (features.length : Int)) →
        (sgdGetitem features tbl i).toOption.isSome = true) ∧
    ((-(features.length : Int) ≤ i ∧ i < 0) →
        sgdGetitem features tbl i = sgdGetitem features tbl (i + features.length)) ∧
    (((features.length : Int) ≤ i ∨ i < -(features.length : Int)) →
        sgdGetitem features tbl i = .error .indexError) ∧
    sgdGetitem features tbl (features.length : Int) = .error .indexError ∧
    (sgdGetitem features tbl (-1)).toOption.isSome = true := by
  have hlen : 0 < features.length := List.length_pos.mpr hne
  have herr : ∀ k : Int, ((features.length : Int) ≤ k ∨ k < -(features.length : Int)) →
      sgdGetitem features tbl k = .error .indexError := by
    intro k hk
    unfold sgdGetitem
    rw [pyIndex_oob features k hk]
    rfl
  have hok : ∀ k : Int, 0 ≤ k → k < (features.length : Int) →
      (sgdGetitem features tbl k).toOption.isSome = true := by
    intro k hk1 hk2
    obtain ⟨a, ha, hmem⟩ := pyIndex_ok_mem features k hk1 hk2
    exact sgdGetitem_isSome_of_serviceInTable features tbl k a ha (hserv a hmem)
  refine ⟨fun h => hok i h.1 h.2, fun h => ?_, herr i, herr _ (Or.inl le_rfl), ?_⟩
  · unfold sgdGetitem
    rw [pyIndex_neg features i h.1 h.2]
  · have hneg := pyIndex_neg features (-1) (by omega) (by omega)
    unfold sgdGetitem
    rw [hneg]
    have := hok (-1 + (features.length : Int)) (by omega) (by omega)
    unfold sgdGetitem at this
    exact this

/-- Counterexample to C3 as stated: on a concrete non-empty collection,
`get(-1)` succeeds (Python negative indexing addresses the last element)
instead of failing with an OutOfRangeError. -/
theorem c3_counterexample_neg_index :
    ([exA] : List SGDExample).length = 1 ∧
    (sgdGetitem [exA] tblA (-1)).toOption.isSome = true :=
  ⟨rfl, rfl⟩

/-- Witness for the amended C3 at a concrete input. -/
theorem c3_indexing_bounds_witness :
    (∀ ex ∈ ([exA] : List SGDExample), serviceInTable tblA ex.service_schema.service_id = true) ∧
    ([exA] : List SGDExample) ≠ [] ∧
    (((0 ≤ (0:Int) ∧ (0:Int) < (([exA] : List SGDExample).length : Int)) →
        (sgdGetitem [exA] tblA 0).toOption.isSome = true) ∧
      ((-((([exA] : List SGDExample).length : Int)) ≤ (0:Int) ∧ (0:Int) < 0) →
        sgdGetitem [exA] tblA 0 = sgdGetitem [exA] tblA (0 + ([exA] : List SGDExample).length)) ∧
      (((([exA] : List SGDExample).length : Int) ≤ (0:Int) ∨ (0:Int) < -((([exA] : List SGDExample).length : Int))) →
        sgdGetitem [exA] tblA 0 = .error .indexError) ∧
      sgdGetitem [exA] tblA (([exA] : List SGDExample).length : Int) = .error .indexError ∧
      (sgdGetitem [exA] tblA (-1)).toOption.isSome = true) :=
  ⟨by decide, by decide,
    c3_indexing_bounds [exA] tblA 0 (by decide) (by decide)⟩

/-- C6: a valid index whose example carries a service id absent from the
loaded embedding table makes `__getitem__` fail with a KeyError; it does
not return defaulted embeddings. -/
theorem c6_missing_service_keyerror (features : List SGDExample) (tbl : SchemaEmbTable)
    (i : Int) (ex : SGDExample)
    (hp : pyIndex features i = .ok ex)
    (h1 : tbl.cat_slot_emb.lookup ex.service_schema.service_id = none)
    (h2 : tbl.cat_slot_value_emb.lookup ex.service_schema.service_id = none)
    (h3 : tbl.noncat_slot_emb.lookup ex.service_schema.service_id = none)
    (h4 : tbl.req_slot_emb.lookup ex.service_schema.service_id = none)
    (h5 : tbl.intent_emb.lookup ex.service_schema.service_id = none) :
    sgdGetitem features tbl i = .error .keyError := by
  simp [sgdGetitem, hp, dictGet, Bind.bind, Except.bind, h1]

/-- Conversion to the 64-bit platform integer dtype is lossless inside its
range. -/
theorem npIntCast_eq_self (x : Int) (h : inInt64 x = true) : npIntCast x = x := by
  simp only [inInt64, Bool.and_eq_true, decide_eq_true_eq] at h
  have e1 : (2:Int) ^ 63 = 9223372036854775808 := by norm_num
  have e2 : (2:Int) ^ 64 = 18446744073709551616 := by norm_num
  unfold npIntCast
  rw [e1] at h
  rw [e1, e2]
  omega

/-- Elementwise: conversion of a list of in-range integers is lossless. -/
theorem map_npIntCast_eq_self (xs : List Int) (h : xs.all inInt64 = true) :
    xs.map npIntCast = xs := by
  induction xs with
  | nil => rfl
  | cons a l ih =>
    rw [List.all_cons, Bool.and_eq_true] at h
    rw [List.map_cons, npIntCast_eq_self a h.1, ih h.2]

/-- C7: on a valid index whose service id is present in the table,
`__getitem__` returns the tuple with the source's conversions: the
real-vs-padding flag becomes the integer 0 or 1 (`dtype=int`); the
requested-slot status and the five embedding arrays become float32-tagged
arrays (`dtype=np.float32`); and every count/id/index field becomes a
64-bit platform integer with its value unchanged (no precision loss) since
it lies in the 64-bit range. -/
theorem c7_numeric_conversions (features : List SGDExample) (tbl : SchemaEmbTable)
    (i : Int) (ex : SGDExample) (cat catv noncat req intent : List ℚ)
    (hp : pyIndex features i = .ok ex)
    (hplaus : plausibleEx ex = true)
    (h1 : tbl.cat_slot_emb.lookup ex.service_schema.service_id = some cat)
    (h2 : tbl.cat_slot_value_emb.lookup ex.service_schema.service_id = some catv)
    (h3 : tbl.noncat_slot_emb.lookup ex.service_schema.service_id = some noncat)
    (h4 : tbl.req_slot_emb.lookup ex.service_schema.service_id = some req)
    (h5 : tbl.intent_emb.lookup ex.service_schema.service_id = some intent) :
    sgdGetitem features tbl i = .ok
      { example_id_num := .i64 ex.example_id_num
        service_id := .i64 [(ex.service_schema.service_id : Int)]
        is_real_example := .i64 [if ex.is_real_example then 1 else 0]
        utterance_ids := .i64 ex.utterance_ids
        utterance_segment := .i64 ex.utterance_segment
        utterance_mask := .i64 ex.utterance_mask
        num_categorical_slots := .i64 [ex.num_categorical_slots]
        categorical_slot_status := .i64 ex.categorical_slot_status
        num_categorical_slot_values := .i64 ex.num_categorical_slot_values
        categorical_slot_values := .i64 ex.categorical_slot_values
        num_noncategorical_slots := .i64 [ex.num_noncategorical_slots]
        noncategorical_slot_status := .i64 ex.noncategorical_slot_status
        noncategorical_slot_value_start := .i64 ex.noncategorical_slot_value_start
        noncategorical_slot_value_end := .i64 ex.noncategorical_slot_value_end
        start_char_idx := .i64 ex.start_char_idx
        end_char_idx := .i64 ex.end_char_idx
        num_slots := .i64 [ex.num_slots]
        requested_slot_status := .f32 ex.requested_slot_status
        num_intents := .i64 [ex.num_intents]
        intent_status := .i64 ex.intent_status
        cat_slot_emb := .f32 cat
        cat_slot_value_emb := .f32 catv
        noncat_slot_emb := .f32 noncat
        req_slot_emb := .f32 req
        intent_emb := .f32 intent } := by
  simp only [plausibleEx, Bool.and_eq_true] at hplaus
  obtain ⟨⟨⟨⟨⟨⟨⟨⟨⟨⟨⟨⟨⟨⟨⟨⟨⟨ha1, ha2⟩, ha3⟩, ha4⟩, ha5⟩, ha6⟩, ha7⟩, ha8⟩, ha9⟩,
    ha10⟩, ha11⟩, ha12⟩, ha13⟩, ha14⟩, ha15⟩, ha16⟩, ha17⟩, ha18⟩ := hplaus
  simp [sgdGetitem, hp, dictGet, Bind.bind, Except.bind, h1, h2, h3, h4, h5,
    npArrIntList, npArrIntScalar, npArrBoolInt, npArrF32,
    map_npIntCast_eq_self _ ha1, npIntCast_eq_self _ ha2,
    map_npIntCast_eq_self _ ha3, map_npIntCast_eq_self _ ha4,
    map_npIntCast_eq_self _ ha5, npIntCast_eq_self _ ha6,
    map_npIntCast_eq_self _ ha7, map_npIntCast_eq_self _ ha8,
    map_npIntCast_eq_self _ ha9, npIntCast_eq_self _ ha10,
    map_npIntCast_eq_self _ ha11, map_npIntCast_eq_self _ ha12,
    map_npIntCast_eq_self _ ha13, map_npIntCast_eq_self _ ha14,
    map_npIntCast_eq_self _ ha15, npIntCast_eq_self _ ha16,
    npIntCast_eq_self _ ha17, map_npIntCast_eq_self _ ha18]

/-- Witness for C7 at a concrete input. -/
theorem c7_numeric_conversions_witness :
    pyIndex [exA] 0 = .ok exA ∧ plausibleEx exA = true ∧
    tblA.cat_slot_emb.lookup exA.service_schema.service_id = some [1, 2] ∧
    tblA.cat_slot_value_emb.lookup exA.service_schema.service_id = some [5] ∧
    tblA.noncat_slot_emb.lookup exA.service_schema.service_id = some [7] ∧
    tblA.req_slot_emb.lookup exA.service_schema.service_id = some [9] ∧
    tblA.intent_emb.lookup exA.service_schema.service_id = some [11] ∧
    sgdGetitem [exA] tblA 0 = .ok
      { example_id_num := .i64 exA.example_id_num
        service_id := .i64 [(exA.service_schema.service_id : Int)]
        is_real_example := .i64 [if exA.is_real_example then 1 else 0]
        utterance_ids := .i64 exA.utterance_ids
        utterance_segment := .i64 exA.utterance_segment
        utterance_mask := .i64 exA.utterance_mask
        num_categorical_slots := .i64 [exA.num_categorical_slots]
        categorical_slot_status := .i64 exA.categorical_slot_status
        num_categorical_slot_values := .i64 exA.num_categorical_slot_values
        categorical_slot_values := .i64 exA.categorical_slot_values
        num_noncategorical_slots := .i64 [exA.num_noncategorical_slots]
        noncategorical_slot_status := .i64 exA.noncategorical_slot_status
        noncategorical_slot_value_start := .i64 exA.noncategorical_slot_value_start
        noncategorical_slot_value_end := .i64 exA.noncategorical_slot_value_end
        start_char_idx := .i64 exA.start_char_idx
        end_char_idx := .i64 exA.end_char_idx
        num_slots := .i64 [exA.num_slots]
        requested_slot_status := .f32 exA.requested_slot_status
        num_intents := .i64 [exA.num_intents]
        intent_status := .i64 exA.intent_status
        cat_slot_emb := .f32 [1, 2]
        cat_slot_value_emb := .f32 [5]
        noncat_slot_emb := .f32 [7]
        req_slot_emb := .f32 [9]
        intent_emb := .f32 [11] } :=
  ⟨by rfl, by decide, by decide, by decide, by decide, by decide, by decide,
    c7_numeric_conversions [exA] tblA 0 exA [1, 2] [5] [7] [9] [11]
      (by rfl) (by decide) (by decide) (by decide) (by decide) (by decide) (by decide)⟩

/-- Witness for C6 at a concrete input whose example's service id 5 is
absent from the table. -/
theorem c6_missing_service_keyerror_witness :
    pyIndex [exB] 0 = .ok exB ∧
    tblA.cat_slot_emb.lookup exB.service_schema.service_id = none ∧
    tblA.cat_slot_value_emb.lookup exB.service_schema.service_id = none ∧
    tblA.noncat_slot_emb.lookup exB.service_schema.service_id = none ∧
    tblA.req_slot_emb.lookup exB.service_schema.service_id = none ∧
    tblA.intent_emb.lookup exB.service_schema.service_id = none ∧
    sgdGetitem [exB] tblA 0 = .error .keyError :=
  ⟨by rfl, by decide, by decide, by decide, by decide, by decide,
    c6_missing_service_keyerror [exB] tblA 0 exB
      (by rfl) (by decide) (by decide) (by decide) (by decide) (by decide)⟩

end SGD

namespace MegatronNM

/-- C10: if the vocabulary file does not exist, the wrapper constructor
fails with a ValueError naming the vocabulary file; if the vocabulary file
exists but the configuration file does not, it fails with a ValueError
naming the configuration file.  In both cases the result is an error, so no
configuration is read and no model state is built. -/
theorem c10_missing_files_valueerror (fs : MFS) (mn cf vf tt : String)
    (seed : Option Int) :
    (mfsExists fs vf = false →
      megatronBertInit fs mn cf vf tt seed
        = .error (.valueError ("Vocab file not found at " ++ vf))) ∧
    (mfsExists fs vf = true → mfsExists fs cf = false →
      megatronBertInit fs mn cf vf tt seed
        = .error (.valueError ("Config file not found at " ++ cf))) := by
  constructor
  · intro hv
    unfold megatronBertInit
    rw [hv]
    rfl
  · intro hv hc
    unfold megatronBertInit
    rw [hv, hc]
    rfl

/-- Witness for C10 at a concrete input with a missing vocabulary file. -/
theorem c10_missing_files_valueerror_witness :
    mfsExists fsMNoVocab "v" = false ∧
    megatronBertInit fsMNoVocab "m" "c" "v" "bwplc" (some 1234)
      = .error (.valueError ("Vocab file not found at " ++ "v")) :=
  ⟨by rfl,
    (c10_missing_files_valueerror fsMNoVocab "m" "c" "v" "bwplc" (some 1234)).1 (by rfl)⟩

end MegatronNM
